import Mathlib

/-!
# Verification of the particle-simulation core (FLIP / MPM)

Shallow embedding of the simulation core of the repository:
the FLIP/MPM compute kernels (`Particles.backends.ts`), the parameter
store (`Particles.params.ts`), the facade lifecycle
(`Particles.index.ts`), and the CPU contact resolver (the unnamed
source file defining `SdfColliders`).

Numbers are modelled as rationals `ℚ` (the source uses IEEE doubles /
f32; the claims under study are about control flow, bookkeeping and
exact algebraic structure, not rounding).  Randomness (`Math.random`)
and transcendental sampling math in `spawnParticle` are abstracted as
an oracle stream of already-drawn particle attributes: no claim
depends on the sampled distribution.  `Math.sqrt` inside the sphere /
box collider branches is passed as an uninterpreted function
parameter; the plane branch (the only one any claim exercises) does
not use it.
-/

/-- A 3-component vector of rationals, standing for `vec3<f32>` /
    JS `[number, number, number]`. -/
structure Vec3 where
  x : ℚ
  y : ℚ
  z : ℚ
deriving DecidableEq, Repr

namespace Vec3

def add (a b : Vec3) : Vec3 := ⟨a.x + b.x, a.y + b.y, a.z + b.z⟩

def sub (a b : Vec3) : Vec3 := ⟨a.x - b.x, a.y - b.y, a.z - b.z⟩

def scale (s : ℚ) (a : Vec3) : Vec3 := ⟨s * a.x, s * a.y, s * a.z⟩

def dot (a b : Vec3) : ℚ := a.x * b.x + a.y * b.y + a.z * b.z

end Vec3

/-- WGSL `mix(a, b, t) = a * (1 - t) + b * t`, written in the
    algebraically identical form `a + (b - a) * t`. -/
def mixQ (a b t : ℚ) : ℚ := a + (b - a) * t

/-- Componentwise `mix` on vectors. -/
def mixV (a b : Vec3) (t : ℚ) : Vec3 :=
  ⟨mixQ a.x b.x t, mixQ a.y b.y t, mixQ a.z b.z t⟩

/-- One Eulerian grid cell: face velocity accumulators `u,v,w`, mass,
    pressure, divergence (each kernel touches the `.x` lane of the
    `vec4<f32>` storage slots; we model that lane). -/
structure GridCell where
  u : ℚ
  v : ℚ
  w : ℚ
  mass : ℚ
  pressure : ℚ
  divergence : ℚ
deriving DecidableEq, Repr

/-- Uniform parameters of the G2P kernel (`SimParams` in the WGSL of
    `createG2PNode`): grid resolution, cell size `dx`, `picFlip`
    blend weight and timestep `dt`. -/
structure G2PParams where
  gridResX : ℕ
  gridResY : ℕ
  dx : ℚ
  picFlip : ℚ
  dt : ℚ
deriving Repr

/-- The WGSL conversion `vec3<u32>(floor(q))` on one component: floor to an integer, with
    negative values mapped to `0` (WGSL float→u32 conversion
    saturates at zero). -/
def u32floor (q : ℚ) : ℕ := (⌊q⌋).toNat

/-- The flat cell index computed by the G2P kernel:
    `cell.x + cell.y * gridRes.x + cell.z * gridRes.x * gridRes.y`. -/
def flatIndex (p : G2PParams) (pos : Vec3) : ℕ :=
  let cx := u32floor (pos.x / p.dx)
  let cy := u32floor (pos.y / p.dx)
  let cz := u32floor (pos.z / p.dx)
  cx + cy * p.gridResX + cz * p.gridResX * p.gridResY

/-- The guarded reciprocal `select(0.0, 1.0 / m, m > 0.0)`. -/
def invMassOf (m : ℚ) : ℚ := if 0 < m then 1 / m else 0

/-- The velocity the G2P kernel resamples from the particle's
    containing cell: `vec3(U.x, V.x, W.x) * invMass`. -/
def g2pGridVel (grid : ℕ → GridCell) (p : G2PParams) (pos : Vec3) : Vec3 :=
  let c := grid (flatIndex p pos)
  Vec3.scale (invMassOf c.mass) ⟨c.u, c.v, c.w⟩

/-- The body of `g2pApicNode` in `createG2PNode`
    (`Particles.backends.ts`): resample the containing cell's
    velocity, blend `newVel = mix(Vel[index], velGrid, picFlip)`,
    then advect `Pos[index] += newVel * dt`.  Returns
    `(new position, new velocity)`. -/
def g2pApicNode (grid : ℕ → GridCell) (p : G2PParams) (pos vel : Vec3) :
    Vec3 × Vec3 :=
  let velGrid := g2pGridVel grid p pos
  let newVel := mixV vel velGrid p.picFlip
  (Vec3.add pos (Vec3.scale p.dt newVel), newVel)

/-- The body of `pressureSolveNode` in `createPressureSolveNode`
    (`Particles.backends.ts`): for a cell of positive mass,
    `Pressure.x = mix(pressure, -div, 0.5)`; zero-mass cells return
    unchanged. -/
def pressureSolveNode (c : GridCell) : GridCell :=
  if c.mass ≤ 0 then c
  else { c with pressure := mixQ c.pressure (-c.divergence) (1 / 2) }

/-- Ordered names of the compute passes a `FlipPass` (GPU variant,
    `Particles.backends.ts`) registers; the graph executes each listed
    pass exactly once per step. -/
inductive PassName where
  | gridClearNode
  | p2gApicNode
  | gridForcesNode
  | pressureSolveNodePass
  | g2pApicNodePass
  | reseedCompactNode
deriving DecidableEq, Repr

/-! ## Parameter store (`Particles.params.ts`)

Runtime option records correspond to `Required<ParticlesOptions>`.
`Required<...>` only makes the top-level blocks mandatory; fields
inside a block stay optional in TypeScript, and `Object.assign`-based
merging can in fact set them to `undefined` at runtime, so every
nested field is modelled as `Option _` (`none` = `undefined`). -/

inductive Mode where
  | flip
  | mpm
deriving DecidableEq, Repr

inductive MpmModel where
  | neoHookean
  | corotated
  | druckerPrager
  | bingham
deriving DecidableEq, Repr

inductive EmitType where
  | sphere
  | box
  | mesh
deriving DecidableEq, Repr

inductive CKind where
  | plane
  | sphere
  | box
  | capsule
  | sdf3d
deriving DecidableEq, Repr

structure CountsR where
  maxParticles : Option ℚ
  particlesPerTile : Option ℚ
deriving DecidableEq, Repr

structure GridR where
  dx : Option ℚ
  res : Option (ℚ × ℚ × ℚ)
  activeTiles : Option Bool
deriving DecidableEq, Repr

structure TimeR where
  substeps : Option ℚ
  cfl : Option ℚ
  dtMax : Option ℚ
deriving DecidableEq, Repr

structure FlipR where
  picFlip : Option ℚ
  apic : Option Bool
  pressureIters : Option ℚ
  pressureTol : Option ℚ
  warmStart : Option Bool
  vorticity : Option ℚ
  viscosity : Option ℚ
  surface : Option ℚ
  cohesion : Option ℚ
  reseed : Option (ℚ × ℚ)
deriving DecidableEq, Repr

structure MpmR where
  model : Option MpmModel
  E : Option ℚ
  nu : Option ℚ
  yield : Option ℚ
  hardening : Option ℚ
  frictionDeg : Option ℚ
  cohesion : Option ℚ
  detClamp : Option (ℚ × ℚ)
  apicBlend : Option ℚ
deriving DecidableEq, Repr

structure ComplianceR where
  contact : Option ℚ
  volume : Option ℚ
deriving DecidableEq, Repr

structure XpbdR where
  iters : Option ℚ
  compliance : Option ComplianceR
  friction : Option ℚ
  restitution : Option ℚ
  stabilize : Option Bool
  shock : Option ℚ
deriving DecidableEq, Repr

structure EmitR where
  type : Option EmitType
  rate : Option ℚ
  center : Option Vec3
  radius : Option ℚ
  half : Option Vec3
  speed : Option ℚ
  jitter : Option ℚ
deriving DecidableEq, Repr

structure RenderR where
  size : Option ℚ
  color : Option String
  additive : Option Bool
  opacity : Option ℚ
  impostor : Option Bool
  thicknessCue : Option Bool
deriving DecidableEq, Repr

/-- The `params: any` bag of a collider: the union of the fields the
    resolver reads per kind (plane: `normal`, `offset`; sphere:
    `center`, `radius`; box: `min`, `max`). -/
structure CParamsR where
  normal : Option Vec3
  offset : Option ℚ
  center : Option Vec3
  radius : Option ℚ
  boxMin : Option Vec3
  boxMax : Option Vec3
deriving DecidableEq, Repr

structure ColliderR where
  kind : CKind
  params : CParamsR
  friction : Option ℚ
  restitution : Option ℚ
  thickness : Option ℚ
  sticky : Option ℚ
  twoWay : Option Bool
deriving DecidableEq, Repr

/-- The runtime option record, `Required<ParticlesOptions>`. -/
structure ROptions where
  mode : Mode
  counts : CountsR
  grid : GridR
  time : TimeR
  gravity : Vec3
  wind : Vec3
  flip : FlipR
  mpm : MpmR
  xpbd : XpbdR
  emit : EmitR
  render : RenderR
  colliders : List ColliderR
deriving DecidableEq, Repr

/-- Embeds `createDefaultOptions()` / `DEFAULT_OPTIONS`
    (`Particles.params.ts`). -/
def createDefaultOptions : ROptions :=
  { mode := .flip
    counts := { maxParticles := some 200000, particlesPerTile := some 64 }
    grid := { dx := some (1/50), res := some (96, 96, 96), activeTiles := some true }
    time := { substeps := some 2, cfl := some 4, dtMax := some (1/60) }
    gravity := ⟨0, -(981/100), 0⟩
    wind := ⟨0, 0, 0⟩
    flip :=
      { picFlip := some (1/20), apic := some true, pressureIters := some 60
        pressureTol := some (1/1000), warmStart := some true, vorticity := some 0
        viscosity := some 0, surface := some 0, cohesion := some 0
        reseed := some (2/5, 3/5) }
    mpm :=
      { model := some .neoHookean, E := some 50000, nu := some (33/100)
        yield := some 0, hardening := some 0, frictionDeg := some 20
        cohesion := some 0, detClamp := some (1/5, 5), apicBlend := some (1/2) }
    xpbd :=
      { iters := some 4
        compliance := some { contact := some (1/1000000), volume := some (1/10000000) }
        friction := some (2/5), restitution := some 0, stabilize := some true
        shock := some 0 }
    emit :=
      { type := some .sphere, rate := some 5000, center := some ⟨0, 1/2, 0⟩
        radius := some (1/5), half := some ⟨1/5, 1/5, 1/5⟩, speed := some 1
        jitter := some (1/10) }
    render :=
      { size := some (1/40), color := some "#4dc9ff", additive := some false
        opacity := some 1, impostor := some false, thicknessCue := some true }
    colliders := [] }

/-! Patch records (`ParticlesOptions`).  A patch field inside an
`Object.assign`-merged block has three states, captured by
`Option (Option α)`: `none` = key absent, `some none` = key present
with value `undefined`, `some (some v)` = key present with value `v`.
A whole patch block is `Option _` (`none` covers both an absent and an
`undefined` block, which behave identically under the source's
truthiness checks). -/

/-- Patch field of an `Object.assign`-merged block. -/
abbrev PF (α : Type) := Option (Option α)

structure CountsP where
  maxParticles : PF ℚ := none
  particlesPerTile : PF ℚ := none
deriving DecidableEq, Repr

structure GridP where
  dx : PF ℚ := none
  res : PF (ℚ × ℚ × ℚ) := none
  activeTiles : PF Bool := none
deriving DecidableEq, Repr

structure TimeP where
  substeps : PF ℚ := none
  cfl : PF ℚ := none
  dtMax : PF ℚ := none
deriving DecidableEq, Repr

structure FlipP where
  picFlip : PF ℚ := none
  apic : PF Bool := none
  pressureIters : PF ℚ := none
  pressureTol : PF ℚ := none
  warmStart : PF Bool := none
  vorticity : PF ℚ := none
  viscosity : PF ℚ := none
  surface : PF ℚ := none
  cohesion : PF ℚ := none
  reseed : PF (ℚ × ℚ) := none
deriving DecidableEq, Repr

structure MpmP where
  model : PF MpmModel := none
  E : PF ℚ := none
  nu : PF ℚ := none
  yield : PF ℚ := none
  hardening : PF ℚ := none
  frictionDeg : PF ℚ := none
  cohesion : PF ℚ := none
  detClamp : PF (ℚ × ℚ) := none
  apicBlend : PF ℚ := none
deriving DecidableEq, Repr

structure ComplianceP where
  contact : PF ℚ := none
  volume : PF ℚ := none
deriving DecidableEq, Repr

structure XpbdP where
  iters : PF ℚ := none
  compliance : Option ComplianceP := none
  friction : PF ℚ := none
  restitution : PF ℚ := none
  stabilize : PF Bool := none
  shock : PF ℚ := none
deriving DecidableEq, Repr

structure EmitP where
  type : PF EmitType := none
  rate : PF ℚ := none
  center : PF Vec3 := none
  radius : PF ℚ := none
  half : PF Vec3 := none
  speed : PF ℚ := none
  jitter : PF ℚ := none
deriving DecidableEq, Repr

structure RenderP where
  size : PF ℚ := none
  color : PF String := none
  additive : PF Bool := none
  opacity : PF ℚ := none
  impostor : PF Bool := none
  thicknessCue : PF Bool := none
deriving DecidableEq, Repr

/-- A partial options patch (`ParticlesOptions`). -/
structure OptionsP where
  mode : Option Mode := none
  counts : Option CountsP := none
  grid : Option GridP := none
  time : Option TimeP := none
  gravity : Option Vec3 := none
  wind : Option Vec3 := none
  flip : Option FlipP := none
  mpm : Option MpmP := none
  xpbd : Option XpbdP := none
  emit : Option EmitP := none
  render : Option RenderP := none
  colliders : Option (List ColliderR) := none
deriving DecidableEq, Repr

/-- One key of `Object.assign(target, patch)`: a key present in the
    patch overwrites the target's value — even when the patch value is
    explicitly `undefined`. -/
def assignF {α : Type} (t : Option α) (p : PF α) : Option α := p.getD t

def assignCounts (t : CountsR) (p : CountsP) : CountsR :=
  { maxParticles := assignF t.maxParticles p.maxParticles
    particlesPerTile := assignF t.particlesPerTile p.particlesPerTile }

def assignGrid (t : GridR) (p : GridP) : GridR :=
  { dx := assignF t.dx p.dx
    res := assignF t.res p.res
    activeTiles := assignF t.activeTiles p.activeTiles }

def assignTime (t : TimeR) (p : TimeP) : TimeR :=
  { substeps := assignF t.substeps p.substeps
    cfl := assignF t.cfl p.cfl
    dtMax := assignF t.dtMax p.dtMax }

def assignFlip (t : FlipR) (p : FlipP) : FlipR :=
  { picFlip := assignF t.picFlip p.picFlip
    apic := assignF t.apic p.apic
    pressureIters := assignF t.pressureIters p.pressureIters
    pressureTol := assignF t.pressureTol p.pressureTol
    warmStart := assignF t.warmStart p.warmStart
    vorticity := assignF t.vorticity p.vorticity
    viscosity := assignF t.viscosity p.viscosity
    surface := assignF t.surface p.surface
    cohesion := assignF t.cohesion p.cohesion
    reseed := assignF t.reseed p.reseed }

def assignMpm (t : MpmR) (p : MpmP) : MpmR :=
  { model := assignF t.model p.model
    E := assignF t.E p.E
    nu := assignF t.nu p.nu
    yield := assignF t.yield p.yield
    hardening := assignF t.hardening p.hardening
    frictionDeg := assignF t.frictionDeg p.frictionDeg
    cohesion := assignF t.cohesion p.cohesion
    detClamp := assignF t.detClamp p.detClamp
    apicBlend := assignF t.apicBlend p.apicBlend }

def assignEmit (t : EmitR) (p : EmitP) : EmitR :=
  { type := assignF t.type p.type
    rate := assignF t.rate p.rate
    center := assignF t.center p.center
    radius := assignF t.radius p.radius
    half := assignF t.half p.half
    speed := assignF t.speed p.speed
    jitter := assignF t.jitter p.jitter }

def assignRender (t : RenderR) (p : RenderP) : RenderR :=
  { size := assignF t.size p.size
    color := assignF t.color p.color
    additive := assignF t.additive p.additive
    opacity := assignF t.opacity p.opacity
    impostor := assignF t.impostor p.impostor
    thicknessCue := assignF t.thicknessCue p.thicknessCue }

/-- A `?? target` / `typeof x === 'number'`-guarded update: only a
    present *and defined* patch value overwrites. -/
def guardedF {α : Type} (t : Option α) (p : PF α) : Option α :=
  match p with
  | some (some v) => some v
  | _ => t

/-- The hand-written `xpbd` branch of `mergeOptions`: `iters` via
    `??`, `compliance` fields behind `typeof === 'number'` guards
    (installing a `{contact: 0, volume: 0}` base when the target block
    is `undefined`), scalar fields behind `typeof` guards. -/
def mergeXpbd (t : XpbdR) (p : XpbdP) : XpbdR :=
  { iters := guardedF t.iters p.iters
    compliance :=
      match p.compliance with
      | none => t.compliance
      | some cp =>
        let base := t.compliance.getD { contact := some 0, volume := some 0 }
        some { contact := guardedF base.contact cp.contact
               volume := guardedF base.volume cp.volume }
    friction := guardedF t.friction p.friction
    restitution := guardedF t.restitution p.restitution
    stabilize := guardedF t.stabilize p.stabilize
    shock := guardedF t.shock p.shock }

/-- Embeds `mergeOptions(target, patch?)` (`Particles.params.ts`): returns
    the target unchanged when the patch is absent, otherwise merges
    block-wise — `Object.assign` for most blocks, wholesale
    replacement for `gravity`/`wind`/`colliders`, guarded updates for
    `xpbd`. -/
def mergeOptions (t : ROptions) (p? : Option OptionsP) : ROptions :=
  match p? with
  | none => t
  | some p =>
    { mode := p.mode.getD t.mode
      counts := match p.counts with | none => t.counts | some b => assignCounts t.counts b
      grid := match p.grid with | none => t.grid | some b => assignGrid t.grid b
      time := match p.time with | none => t.time | some b => assignTime t.time b
      gravity := p.gravity.getD t.gravity
      wind := p.wind.getD t.wind
      flip := match p.flip with | none => t.flip | some b => assignFlip t.flip b
      mpm := match p.mpm with | none => t.mpm | some b => assignMpm t.mpm b
      xpbd := match p.xpbd with | none => t.xpbd | some b => mergeXpbd t.xpbd b
      emit := match p.emit with | none => t.emit | some b => assignEmit t.emit b
      render := match p.render with | none => t.render | some b => assignRender t.render b
      colliders := p.colliders.getD t.colliders }

/-- JS `x <= c` where `x` may be `undefined`: comparison with
    `undefined` is `false` (NaN semantics). -/
def jsLe (x : Option ℚ) (c : ℚ) : Bool :=
  match x with
  | some v => decide (v ≤ c)
  | none => false

/-- Embeds `validateOptions(opts)` (`Particles.params.ts`), with each
    `throw` modelled as `Except.error` of the thrown message. -/
def validateOptions (o : ROptions) : Except String Unit :=
  if jsLe o.counts.maxParticles 0 then .error "maxParticles must be > 0"
  else if o.grid.dx.getD 0 ≤ 0 then .error "grid.dx must be > 0"
  else
    let res := o.grid.res.getD (0, 0, 0)
    if res.1 * res.2.1 * res.2.2 ≤ 0 then .error "grid.res must be positive"
    else if o.time.substeps.getD 1 < 1 then .error "time.substeps must be >= 1"
    else if o.time.dtMax.getD 0 ≤ 0 then .error "time.dtMax must be > 0"
    else
      match o.mode with
      | .flip =>
        if o.flip.pressureIters.getD 0 < 1 then .error "flip.pressureIters must be >= 1"
        else if o.flip.picFlip.getD 0 < 0 ∨ 1 < o.flip.picFlip.getD 0 then
          .error "flip.picFlip must be within [0,1]"
        else .ok ()
      | .mpm =>
        if o.mpm.E.getD 0 ≤ 0 then .error "mpm.E must be > 0"
        else if o.mpm.nu.getD 0 < 0 ∨ 1/2 ≤ o.mpm.nu.getD 0 then
          .error "mpm.nu must be within [0,0.5)"
        else .ok ()

/-! The `PRESETS` table (`Particles.params.ts`). -/

def waterFlipPreset : OptionsP :=
  { mode := some .flip
    flip := some
      { picFlip := some (some (1/20)), pressureIters := some (some 64)
        pressureTol := some (some (1/1000)), surface := some (some (1/5))
        viscosity := some (some (1/100)) }
    render := some { color := some (some "#3aa7ff"), size := some (some (1/50)) }
    xpbd := some
      { compliance := some { contact := some (some (1/2000000)) }
        friction := some (some 0), restitution := some (some (1/10)) } }

def sheetFlipPreset : OptionsP :=
  { mode := some .flip
    flip := some
      { picFlip := some (some 0), pressureIters := some (some 48)
        vorticity := some (some 2) }
    render := some { color := some (some "#8ce0ff"), size := some (some (9/500)) } }

def jellyMpmPreset : OptionsP :=
  { mode := some .mpm
    mpm := some
      { model := some (some .neoHookean), E := some (some 6000)
        nu := some (some (3/10)), apicBlend := some (some (4/5)) }
    xpbd := some { compliance := some { volume := some (some (1/1000000)) } }
    render := some { color := some (some "#ff7bd8"), size := some (some (7/250)) } }

def sandMpmPreset : OptionsP :=
  { mode := some .mpm
    mpm := some
      { model := some (some .druckerPrager), E := some (some 45000)
        nu := some (some (1/5)), yield := some (some 90000)
        hardening := some (some 2), frictionDeg := some (some 35) }
    xpbd := some
      { friction := some (some (3/5))
        compliance := some { contact := some (some (1/500000)) } }
    render := some { color := some (some "#f0c27b"), size := some (some (3/125)) } }

def slimeMpmPreset : OptionsP :=
  { mode := some .mpm
    mpm := some
      { model := some (some .bingham), E := some (some 1200)
        nu := some (some (47/100)), yield := some (some 2000)
        hardening := some (some (1/2)), frictionDeg := some (some 10) }
    xpbd := some
      { friction := some (some (1/5))
        compliance := some { contact := some (some (1/100000)) } }
    render := some { color := some (some "#a3ff7f"), size := some (some (3/100)) } }

/-- The JS property lookup `PRESETS[name]` on the preset record; an
    unregistered name yields `undefined` (`none`). -/
def presetLookup (name : String) : Option OptionsP :=
  if name = "water_flip" then some waterFlipPreset
  else if name = "sheet_flip" then some sheetFlipPreset
  else if name = "jelly_mpm" then some jellyMpmPreset
  else if name = "sand_mpm" then some sandMpmPreset
  else if name = "slime_mpm" then some slimeMpmPreset
  else none

/-- Embeds `applyPreset(opts, name) = mergeOptions(opts, PRESETS[name])`
    (`Particles.params.ts`): no lookup-failure check of any kind. -/
def applyPreset (o : ROptions) (name : String) : ROptions :=
  mergeOptions o (presetLookup name)

/-- The list of compute passes the `FlipPass` constructor
    (`Particles.backends.ts`) registers, in order; `ParticlesGraph`
    runs each registered pass exactly once per `step`.  The
    constructor reads `opts` only for uniforms and dispatch sizes —
    the pass list itself is fixed. -/
def flipPassList (_o : ROptions) : List PassName :=
  [.gridClearNode, .p2gApicNode, .gridForcesNode,
   .pressureSolveNodePass, .g2pApicNodePass, .reseedCompactNode]

/-! ## Facade lifecycle (`Particles.index.ts`)

Particle storage is modelled as total functions from slot index, with
the populated prefix `[0, alive)`.  `spawnParticle`'s random sampling
(`Math.random`, the sphere/box shape math) is abstracted as an oracle
stream `draws` of already-sampled particle attributes, consumed one
entry per spawn; no claim depends on the sampled values. -/

/-- Per-particle mutable arrays plus the `alive` counter
    (`ParticlesBufferBundle` slice the lifecycle code touches). -/
structure PState where
  life : ℕ → ℚ
  pos : ℕ → Vec3
  vel : ℕ → Vec3
  alive : ℕ

/-- One drawn set of spawn attributes (position from the emitter
    shape, velocity from speed ± jitter, life from `3 + 2·random`). -/
structure SpawnDraw where
  pos : Vec3
  vel : Vec3
  life : ℚ

/-- The facade state the lifecycle methods read and write: options,
    particle buffers, the fixed buffer capacity, the fractional
    emission accumulator, and the oracle cursor. -/
structure SimState where
  options : ROptions
  ps : PState
  maxParticles : ℕ
  emitAcc : ℚ
  drawCtr : ℕ

/-- Embeds `ParticlesSim.spawnParticle`: no-op at capacity, otherwise write
    the drawn attributes into slot `alive` and increment `alive`. -/
def spawnParticle (draws : ℕ → SpawnDraw) (s : SimState) : SimState :=
  if s.maxParticles ≤ s.ps.alive then s
  else
    let i := s.ps.alive
    let d := draws s.drawCtr
    { s with
      drawCtr := s.drawCtr + 1
      ps :=
        { life := Function.update s.ps.life i d.life
          pos := Function.update s.ps.pos i d.pos
          vel := Function.update s.ps.vel i d.vel
          alive := i + 1 } }

/-- Runs `n` consecutive `spawnParticle` calls (the spawn loops). -/
def spawnN (draws : ℕ → SpawnDraw) : ℕ → SimState → SimState
  | 0, s => s
  | n + 1, s => spawnN draws n (spawnParticle draws s)

/-- Embeds `ParticlesSim.seedFromEmitter`: reset `alive` to 0, then spawn
    `min(maxParticles, floor(rate * 0.1))` particles. -/
def seedFromEmitter (draws : ℕ → SpawnDraw) (s : SimState) : SimState :=
  let s0 := { s with ps := { s.ps with alive := 0 } }
  let seedCount : ℤ :=
    min (s.maxParticles : ℤ) ⌊s.options.emit.rate.getD 0 * (1/10)⌋
  spawnN draws seedCount.toNat s0

/-- Embeds `ParticlesSim.emitParticles(dt)`: accumulate `rate * dt`, spawn
    `min(floor(accumulator), maxParticles - alive)` whole particles
    when positive, and debit the accumulator. -/
def emitParticles (draws : ℕ → SpawnDraw) (dt : ℚ) (s : SimState) : SimState :=
  let rate := s.options.emit.rate.getD 0
  if rate ≤ 0 then s
  else
    let acc := s.emitAcc + rate * dt
    let spawnCount : ℤ := min ⌊acc⌋ ((s.maxParticles : ℤ) - (s.ps.alive : ℤ))
    if spawnCount ≤ 0 then { s with emitAcc := acc }
    else spawnN draws spawnCount.toNat { s with emitAcc := acc - (spawnCount : ℚ) }

/-- Embeds `ParticlesSim.setParams(patch)`: merge, validate (a `throw`
    becomes `Except.error`), on a mode change zero `alive` and reseed
    from the emitter, on an emitter patch clamp `alive` and clear the
    accumulator.  No buffer reallocation happens anywhere:
    `maxParticles` and the arrays object are the ones from
    construction. -/
def setParams (draws : ℕ → SpawnDraw) (patch : OptionsP) (s : SimState) :
    Except String SimState :=
  let prevMode := s.options.mode
  let o2 := mergeOptions s.options (some patch)
  match validateOptions o2 with
  | .error e => .error e
  | .ok _ =>
    let s1 := { s with options := o2 }
    let s2 :=
      match patch.mode with
      | some m =>
        if m ≠ prevMode then
          seedFromEmitter draws { s1 with ps := { s1.ps with alive := 0 } }
        else s1
      | none => s1
    let s3 :=
      if patch.emit.isSome then
        { s2 with
          ps := { s2.ps with alive := min s2.ps.alive s2.maxParticles }
          emitAcc := 0 }
      else s2
    .ok s3

/-- The body of the `ParticlesSim.integrateLifetime` loop at index
    `i`: decrement `life[i]`; on death, decrement `alive` and (unless
    `i` is the last live slot) overwrite slot `i` with slot `alive`'s
    fields and zero `life[alive]`. -/
def liStep (dt : ℚ) (s : PState) (i : ℕ) : PState :=
  let l1 := Function.update s.life i (s.life i - dt)
  if 0 < l1 i then { s with life := l1 }
  else
    let a := s.alive - 1
    if i = a then { s with life := l1, alive := a }
    else
      { life := Function.update (Function.update l1 i (l1 a)) a 0
        pos := Function.update s.pos i (s.pos a)
        vel := Function.update s.vel i (s.vel a)
        alive := a }

/-- The downward loop `for (i = alive - 1; i >= 0; i--)`: `liLoop n`
    processes indices `n-1, n-2, …, 0`. -/
def liLoop (dt : ℚ) : ℕ → PState → PState
  | 0, s => s
  | n + 1, s => liLoop dt n (liStep dt s n)

/-- Embeds `ParticlesSim.integrateLifetime(dt)`. -/
def integrateLifetime (dt : ℚ) (s : PState) : PState := liLoop dt s.alive s

/-! ## CPU contact resolver (`SdfColliders`, unnamed source file)

`Math.sqrt` is passed as an uninterpreted function `sq` (only the
sphere and box branches use it). -/

/-- The resolver's normalized `Collider` record (its constructor fills
    `friction`/`restitution`/`thickness` for every kept collider). -/
structure NCollider where
  kind : CKind
  params : CParamsR
  friction : ℚ
  restitution : ℚ
  thickness : ℚ
deriving DecidableEq, Repr

/-- The `SdfColliders` constructor: keep plane/sphere/box colliders
    with defaulted friction (`?? xpbd.friction ?? 0`), restitution
    (`?? xpbd.restitution ?? 0.05`) and thickness (`?? 0.01`); drop
    other kinds; if nothing remains, push the default ground plane
    `{normal: [0,1,0], offset: 0}` with thickness `0.015`. -/
def sdfCollidersInit (o : ROptions) : List NCollider :=
  let kept := o.colliders.filterMap fun c =>
    let friction := c.friction.getD (o.xpbd.friction.getD 0)
    let restitution := c.restitution.getD (o.xpbd.restitution.getD (1/20))
    let thickness := c.thickness.getD (1/100)
    match c.kind with
    | .plane => some ⟨c.kind, c.params, friction, restitution, thickness⟩
    | .sphere => some ⟨c.kind, c.params, friction, restitution, thickness⟩
    | .box => some ⟨c.kind, c.params, friction, restitution, thickness⟩
    | _ => none
  if kept.isEmpty then
    [⟨.plane,
      { normal := some ⟨0, 1, 0⟩, offset := some 0, center := none
        radius := none, boxMin := none, boxMax := none },
      o.xpbd.friction.getD (1/5), o.xpbd.restitution.getD (1/20), 3/200⟩]
  else kept

/-- Embeds `clampToRange(value, min, max) = Math.min(Math.max(value, min), max)`. -/
def clampToRange (value lo hi : ℚ) : ℚ := min (max value lo) hi

/-- The plane branch of `SdfColliders.resolve`.  Reading
    `params.normal` when it is absent is a JS `TypeError`; that case
    is modelled as leaving the particle unchanged and is not exercised
    by any collider the constructor produces from the configurations
    considered here. -/
def resolvePlane (c : NCollider) (p v : Vec3) : Vec3 × Vec3 :=
  match c.params.normal with
  | none => (p, v)
  | some n =>
    let offv := c.params.offset.getD 0
    let dist := p.x * n.x + p.y * n.y + p.z * n.z + offv - c.thickness
    if dist < 0 then
      let p2 : Vec3 := ⟨p.x - dist * n.x, p.y - dist * n.y, p.z - dist * n.z⟩
      let vn := v.x * n.x + v.y * n.y + v.z * n.z
      let vt : Vec3 := ⟨v.x - vn * n.x, v.y - vn * n.y, v.z - vn * n.z⟩
      let v1 : Vec3 :=
        ⟨vt.x * (1 - c.friction), vt.y * (1 - c.friction), vt.z * (1 - c.friction)⟩
      let v2 : Vec3 :=
        ⟨v1.x - vn * n.x * (1 + c.restitution),
         v1.y - vn * n.y * (1 + c.restitution),
         v1.z - vn * n.z * (1 + c.restitution)⟩
      (p2, v2)
    else (p, v)

/-- The sphere branch of `SdfColliders.resolve` (reads `center` /
    `radius ?? 1`; distance via the `sq` square-root oracle). -/
def resolveSphere (sq : ℚ → ℚ) (c : NCollider) (p v : Vec3) : Vec3 × Vec3 :=
  match c.params.center with
  | none => (p, v)
  | some ctr =>
    let radius := c.params.radius.getD 1
    let dx := p.x - ctr.x
    let dy := p.y - ctr.y
    let dz := p.z - ctr.z
    let dist := sq (dx * dx + dy * dy + dz * dz)
    let pen := radius + c.thickness - dist
    if 0 < pen ∧ 1/100000 < dist then
      let nx := dx / dist
      let ny := dy / dist
      let nz := dz / dist
      let p2 : Vec3 := ⟨p.x + nx * pen, p.y + ny * pen, p.z + nz * pen⟩
      let vn := v.x * nx + v.y * ny + v.z * nz
      let v1 : Vec3 :=
        ⟨v.x - vn * nx * (1 + c.restitution),
         v.y - vn * ny * (1 + c.restitution),
         v.z - vn * nz * (1 + c.restitution)⟩
      let v2 : Vec3 :=
        ⟨v1.x * (1 - c.friction * (1/2)), v1.y * (1 - c.friction * (1/2)),
         v1.z * (1 - c.friction * (1/2))⟩
      (p2, v2)
    else (p, v)

/-- The box branch of `SdfColliders.resolve` (clamp to the box, push
    to `thickness` along the offset direction when within it). -/
def resolveBox (sq : ℚ → ℚ) (c : NCollider) (p v : Vec3) : Vec3 × Vec3 :=
  match c.params.boxMin, c.params.boxMax with
  | some lo, some hi =>
    let nextX := clampToRange p.x lo.x hi.x
    let nextY := clampToRange p.y lo.y hi.y
    let nextZ := clampToRange p.z lo.z hi.z
    let dx := p.x - nextX
    let dy := p.y - nextY
    let dz := p.z - nextZ
    let dist := sq (dx * dx + dy * dy + dz * dz)
    if 0 < dist ∧ dist ≤ c.thickness then
      let nx := dx / dist
      let ny := dy / dist
      let nz := dz / dist
      let p2 : Vec3 :=
        ⟨nextX + nx * c.thickness, nextY + ny * c.thickness, nextZ + nz * c.thickness⟩
      let vn := v.x * nx + v.y * ny + v.z * nz
      let v1 : Vec3 :=
        ⟨v.x - vn * nx * (1 + c.restitution),
         v.y - vn * ny * (1 + c.restitution),
         v.z - vn * nz * (1 + c.restitution)⟩
      let v2 : Vec3 :=
        ⟨v1.x * (1 - c.friction), v1.y * (1 - c.friction), v1.z * (1 - c.friction)⟩
      (p2, v2)
    else (p, v)
  | _, _ => (p, v)

/-- Dispatch on `collider.kind` inside the resolve loop; the if-else
    chain has no arm for `capsule`/`sdf3d`, so those leave the
    particle untouched. -/
def resolveCollider (sq : ℚ → ℚ) (c : NCollider) (pv : Vec3 × Vec3) : Vec3 × Vec3 :=
  match c.kind with
  | .plane => resolvePlane c pv.1 pv.2
  | .sphere => resolveSphere sq c pv.1 pv.2
  | .box => resolveBox sq c pv.1 pv.2
  | .capsule => pv
  | .sdf3d => pv

/-- One particle's pass through the collider list, sequentially in
    list order (collider `i+1` sees collider `i`'s correction). -/
def resolveParticle (sq : ℚ → ℚ) (cs : List NCollider) (pv : Vec3 × Vec3) :
    Vec3 × Vec3 :=
  cs.foldl (fun acc c => resolveCollider sq c acc) pv

/-- Embeds `SdfColliders.resolve(position, velocity, alive)`: every live
    particle runs through the collider list once. -/
def resolveParticles (sq : ℚ → ℚ) (cs : List NCollider)
    (particles : List (Vec3 × Vec3)) : List (Vec3 × Vec3) :=
  particles.map (resolveParticle sq cs)

/-! ## Spec-side predicates and concrete instances used by the claims -/

/-- A patch field that, when present, carries a defined value (the
    key is not explicitly set to `undefined`). -/
def PFDefined {α : Type} (p : PF α) : Prop := p ≠ some none

/-- A previously-defined runtime field stays defined. -/
def OptPreserved {α : Type} (t t2 : Option α) : Prop := t.isSome → t2.isSome

def CountsPDefOnly (p : CountsP) : Prop :=
  PFDefined p.maxParticles ∧ PFDefined p.particlesPerTile

def GridPDefOnly (p : GridP) : Prop :=
  PFDefined p.dx ∧ PFDefined p.res ∧ PFDefined p.activeTiles

def TimePDefOnly (p : TimeP) : Prop :=
  PFDefined p.substeps ∧ PFDefined p.cfl ∧ PFDefined p.dtMax

def FlipPDefOnly (p : FlipP) : Prop :=
  PFDefined p.picFlip ∧ PFDefined p.apic ∧ PFDefined p.pressureIters ∧
  PFDefined p.pressureTol ∧ PFDefined p.warmStart ∧ PFDefined p.vorticity ∧
  PFDefined p.viscosity ∧ PFDefined p.surface ∧ PFDefined p.cohesion ∧
  PFDefined p.reseed

def MpmPDefOnly (p : MpmP) : Prop :=
  PFDefined p.model ∧ PFDefined p.E ∧ PFDefined p.nu ∧ PFDefined p.yield ∧
  PFDefined p.hardening ∧ PFDefined p.frictionDeg ∧ PFDefined p.cohesion ∧
  PFDefined p.detClamp ∧ PFDefined p.apicBlend

def EmitPDefOnly (p : EmitP) : Prop :=
  PFDefined p.type ∧ PFDefined p.rate ∧ PFDefined p.center ∧
  PFDefined p.radius ∧ PFDefined p.half ∧ PFDefined p.speed ∧
  PFDefined p.jitter

def RenderPDefOnly (p : RenderP) : Prop :=
  PFDefined p.size ∧ PFDefined p.color ∧ PFDefined p.additive ∧
  PFDefined p.opacity ∧ PFDefined p.impostor ∧ PFDefined p.thicknessCue

/-- The patch carries no explicitly-`undefined` key in any
    `Object.assign`-merged block.  (The `xpbd` block needs no such
    condition: its merge is `??`/`typeof`-guarded.) -/
def OptionsPDefOnly (p : OptionsP) : Prop :=
  p.counts.elim True CountsPDefOnly ∧
  p.grid.elim True GridPDefOnly ∧
  p.time.elim True TimePDefOnly ∧
  p.flip.elim True FlipPDefOnly ∧
  p.mpm.elim True MpmPDefOnly ∧
  p.emit.elim True EmitPDefOnly ∧
  p.render.elim True RenderPDefOnly

def CountsPreserved (t t2 : CountsR) : Prop :=
  OptPreserved t.maxParticles t2.maxParticles ∧
  OptPreserved t.particlesPerTile t2.particlesPerTile

def GridPreserved (t t2 : GridR) : Prop :=
  OptPreserved t.dx t2.dx ∧ OptPreserved t.res t2.res ∧
  OptPreserved t.activeTiles t2.activeTiles

def TimePreserved (t t2 : TimeR) : Prop :=
  OptPreserved t.substeps t2.substeps ∧ OptPreserved t.cfl t2.cfl ∧
  OptPreserved t.dtMax t2.dtMax

def FlipPreserved (t t2 : FlipR) : Prop :=
  OptPreserved t.picFlip t2.picFlip ∧ OptPreserved t.apic t2.apic ∧
  OptPreserved t.pressureIters t2.pressureIters ∧
  OptPreserved t.pressureTol t2.pressureTol ∧
  OptPreserved t.warmStart t2.warmStart ∧
  OptPreserved t.vorticity t2.vorticity ∧
  OptPreserved t.viscosity t2.viscosity ∧
  OptPreserved t.surface t2.surface ∧
  OptPreserved t.cohesion t2.cohesion ∧
  OptPreserved t.reseed t2.reseed

def MpmPreserved (t t2 : MpmR) : Prop :=
  OptPreserved t.model t2.model ∧ OptPreserved t.E t2.E ∧
  OptPreserved t.nu t2.nu ∧ OptPreserved t.yield t2.yield ∧
  OptPreserved t.hardening t2.hardening ∧
  OptPreserved t.frictionDeg t2.frictionDeg ∧
  OptPreserved t.cohesion t2.cohesion ∧
  OptPreserved t.detClamp t2.detClamp ∧
  OptPreserved t.apicBlend t2.apicBlend

/-- The defined-ness of the leaf path `xpbd.compliance.contact`. -/
def xpbdComplianceContact (x : XpbdR) : Option ℚ :=
  match x.compliance with
  | none => none
  | some c => c.contact

/-- The defined-ness of the leaf path `xpbd.compliance.volume`. -/
def xpbdComplianceVolume (x : XpbdR) : Option ℚ :=
  match x.compliance with
  | none => none
  | some c => c.volume

def XpbdPreserved (t t2 : XpbdR) : Prop :=
  OptPreserved t.iters t2.iters ∧
  OptPreserved (xpbdComplianceContact t) (xpbdComplianceContact t2) ∧
  OptPreserved (xpbdComplianceVolume t) (xpbdComplianceVolume t2) ∧
  OptPreserved t.friction t2.friction ∧
  OptPreserved t.restitution t2.restitution ∧
  OptPreserved t.stabilize t2.stabilize ∧
  OptPreserved t.shock t2.shock

def EmitPreserved (t t2 : EmitR) : Prop :=
  OptPreserved t.type t2.type ∧ OptPreserved t.rate t2.rate ∧
  OptPreserved t.center t2.center ∧ OptPreserved t.radius t2.radius ∧
  OptPreserved t.half t2.half ∧ OptPreserved t.speed t2.speed ∧
  OptPreserved t.jitter t2.jitter

def RenderPreserved (t t2 : RenderR) : Prop :=
  OptPreserved t.size t2.size ∧ OptPreserved t.color t2.color ∧
  OptPreserved t.additive t2.additive ∧ OptPreserved t.opacity t2.opacity ∧
  OptPreserved t.impostor t2.impostor ∧
  OptPreserved t.thicknessCue t2.thicknessCue

/-- Every previously-defined nested field of the target is still
    defined after the merge (top-level `mode`/`gravity`/`wind`/
    `colliders` are not `Option`-valued and cannot be undefined). -/
def ROptionsPreserved (t t2 : ROptions) : Prop :=
  CountsPreserved t.counts t2.counts ∧
  GridPreserved t.grid t2.grid ∧
  TimePreserved t.time t2.time ∧
  FlipPreserved t.flip t2.flip ∧
  MpmPreserved t.mpm t2.mpm ∧
  XpbdPreserved t.xpbd t2.xpbd ∧
  EmitPreserved t.emit t2.emit ∧
  RenderPreserved t.render t2.render

/-! Concrete instances the counterexamples and witnesses evaluate. -/

/-- A uniform grid whose (only relevant) cell holds mass 1 and
    velocity accumulator `(2, 0, 0)`. -/
def c1Grid : ℕ → GridCell := fun _ => ⟨2, 0, 0, 1, 0, 0⟩

/-- G2P uniforms with `picFlip = 0` (the claim's "pure grid" case). -/
def c1Params : G2PParams := ⟨96, 96, 1/50, 0, 1/60⟩

def c1Pos : Vec3 := ⟨1/100, 1/100, 1/100⟩

def c1Vel : Vec3 := ⟨1, 0, 0⟩

/-- An all-zero particle store. -/
def zeroPState : PState := ⟨fun _ => 0, fun _ => ⟨0, 0, 0⟩, fun _ => ⟨0, 0, 0⟩, 0⟩

/-- A constant spawn-attribute oracle. -/
def constDraws : ℕ → SpawnDraw := fun _ => ⟨⟨0, 0, 0⟩, ⟨0, 0, 0⟩, 4⟩

/-- Default options with a small capacity and emitter rate, as a
    FLIP-mode simulation configuration. -/
def c2Options : ROptions :=
  { createDefaultOptions with
    counts := { maxParticles := some 10, particlesPerTile := some 64 }
    emit := { createDefaultOptions.emit with rate := some 50 } }

/-- A freshly constructed FLIP simulation over `c2Options` with an
    empty population. -/
def c2State : SimState := ⟨c2Options, zeroPState, 10, 0, 0⟩

/-- The patch `{mode: 'mpm'}`. -/
def c2Patch : OptionsP := { mode := some .mpm }

/-- Lifetimes `5, 1, 0, 0, …` with two live slots. -/
def c3Life : ℕ → ℚ := fun i => if i = 0 then 5 else if i = 1 then 1 else 0

def c3State : PState := ⟨c3Life, fun _ => ⟨0, 0, 0⟩, fun _ => ⟨0, 0, 0⟩, 2⟩

/-- Lifetimes `5, 3, 0, 0, …` with `alive = 1`: slot 1 holds a stale
    positive lifetime above `alive` — exactly the shape a mode-change
    reseed leaves behind (`seedFromEmitter` zeroes `alive` and
    respawns fewer particles without clearing the old `life` values,
    so slots in `[seedCount, prevAlive)` keep their stale `life`). -/
def c3StaleLife : ℕ → ℚ := fun i => if i = 0 then 5 else if i = 1 then 3 else 0

/-- A reachable prior state violating the free-slot condition. -/
def c3Stale : PState := ⟨c3StaleLife, fun _ => ⟨0, 0, 0⟩, fun _ => ⟨0, 0, 0⟩, 1⟩

/-- A small simulation at capacity 4 with the default (rate 5000)
    emitter. -/
def c4State : SimState := ⟨createDefaultOptions, zeroPState, 4, 0, 0⟩

/-- Default options with `flip.pressureIters = 2`. -/
def c5Options : ROptions :=
  { createDefaultOptions with
    flip := { createDefaultOptions.flip with pressureIters := some 2 } }

/-- Default options with grid resolution `[-1, -1, 1]`: two axes are
    non-positive but the product is `1 > 0`. -/
def c8Options : ROptions :=
  { createDefaultOptions with
    grid := { createDefaultOptions.grid with res := some (-1, -1, 1) } }

/-- A patch whose `counts.maxParticles` key is explicitly present with
    value `undefined`. -/
def c9Patch : OptionsP := { counts := some { maxParticles := some none } }

/-- A patch that sets `counts.maxParticles` to a defined value. -/
def c9GoodPatch : OptionsP := { counts := some { maxParticles := some (some 100) } }

/-! ## Theorems -/

theorem mixV_blend_form (a b : Vec3) (t : ℚ) :
    mixV a b t = Vec3.add a (Vec3.scale t (Vec3.sub b a)) := by
  cases a; cases b
  simp only [mixV, mixQ, Vec3.add, Vec3.scale, Vec3.sub, Vec3.mk.injEq]
  refine ⟨by ring, by ring, by ring⟩

theorem mixV_zero (a b : Vec3) : mixV a b 0 = a := by
  cases a; cases b
  simp only [mixV, mixQ, Vec3.mk.injEq]
  refine ⟨by ring, by ring, by ring⟩

theorem mixV_one (a b : Vec3) : mixV a b 1 = b := by
  cases a; cases b
  simp only [mixV, mixQ, Vec3.mk.injEq]
  refine ⟨by ring, by ring, by ring⟩

theorem g2pApicNode_snd (grid : ℕ → GridCell) (pr : G2PParams) (pos vel : Vec3) :
    (g2pApicNode grid pr pos vel).2 = mixV vel (g2pGridVel grid pr pos) pr.picFlip := rfl

/-- C1 (counterexample): with `picFlip = 0`, the G2P pass returns the
    particle's pre-transfer velocity — not the resampled grid
    velocity, contrary to the claim's blend direction
    (`mix(Vel, velGrid, picFlip)` weights the grid end by `picFlip`). -/
theorem g2p_picFlip_zero_keeps_particle_velocity :
    (g2pApicNode c1Grid c1Params c1Pos c1Vel).2 = c1Vel ∧
    g2pGridVel c1Grid c1Params c1Pos = ⟨2, 0, 0⟩ ∧
    (g2pApicNode c1Grid c1Params c1Pos c1Vel).2 ≠
      g2pGridVel c1Grid c1Params c1Pos := by
  have hg : g2pGridVel c1Grid c1Params c1Pos = ⟨2, 0, 0⟩ := by
    simp only [g2pGridVel, c1Grid, invMassOf, Vec3.scale, Vec3.mk.injEq]
    norm_num
  have hv : (g2pApicNode c1Grid c1Params c1Pos c1Vel).2 = c1Vel := by
    rw [g2pApicNode_snd]
    exact mixV_zero _ _
  refine ⟨hv, hg, ?_⟩
  rw [hv, hg]
  intro hEq
  have hx : c1Vel.x = (2 : ℚ) := congrArg Vec3.x hEq
  have : (1 : ℚ) = 2 := hx
  norm_num at this

/-- C1 (amended): the new particle velocity is the linear blend
    `vel + picFlip * (velGrid - vel)`: `picFlip = 0` yields the pure
    pre-transfer particle (FLIP) velocity and `picFlip = 1` yields the
    pure resampled grid (PIC) velocity. -/
theorem g2pApicNode_blend_direction (grid : ℕ → GridCell) (pr : G2PParams)
    (pos vel : Vec3) :
    (g2pApicNode grid pr pos vel).2 =
      Vec3.add vel (Vec3.scale pr.picFlip (Vec3.sub (g2pGridVel grid pr pos) vel)) ∧
    (g2pApicNode grid { pr with picFlip := 0 } pos vel).2 = vel ∧
    (g2pApicNode grid { pr with picFlip := 1 } pos vel).2 =
      g2pGridVel grid { pr with picFlip := 1 } pos := by
  refine ⟨?_, ?_, ?_⟩
  · rw [g2pApicNode_snd]
    exact mixV_blend_form _ _ _
  · rw [g2pApicNode_snd]
    exact mixV_zero _ _
  · rw [g2pApicNode_snd]
    exact mixV_one _ _

/-- C5 (counterexample): with `flip.pressureIters = 2`, the FLIP step
    contains the pressure-solve relaxation pass exactly once — not
    `pressureIters` times. -/
theorem flip_pressure_pass_ignores_iters :
    (flipPassList c5Options).count PassName.pressureSolveNodePass = 1 ∧
    c5Options.flip.pressureIters = some 2 ∧ (1 : ℕ) ≠ 2 :=
  ⟨rfl, rfl, by decide⟩

/-- C5 (amended): for every configuration the pressure-solve
    relaxation pass is registered — and hence executed per step —
    exactly once; `flip.pressureIters` does not influence the pass
    list. -/
theorem flipPassList_pressure_once (o : ROptions) :
    (flipPassList o).count PassName.pressureSolveNodePass = 1 := rfl

/-- C7 (counterexample): `applyPreset` with the unregistered name
    `"nope"` does not fail — the lookup yields `undefined`,
    `mergeOptions` returns the target unchanged, and no
    `UnknownPresetError` exists anywhere in the code. -/
theorem applyPreset_unknown_does_not_fail :
    presetLookup "nope" = none ∧
    applyPreset createDefaultOptions "nope" = createDefaultOptions :=
  ⟨by decide, rfl⟩

/-- C7 (amended): `applyPreset(opts, name)` with an unregistered name
    is a silent no-op returning `opts` unchanged (no error of any
    kind); a registered name merges the preset entry onto `opts`. -/
theorem applyPreset_unknown_noop (o : ROptions) (name : String)
    (h : presetLookup name = none) : applyPreset o name = o := by
  unfold applyPreset
  rw [h]
  rfl

theorem applyPreset_unknown_noop_witness :
    presetLookup "bogus" = none ∧
    applyPreset createDefaultOptions "bogus" = createDefaultOptions :=
  ⟨by decide, applyPreset_unknown_noop createDefaultOptions "bogus" (by decide)⟩

/-- C8 (counterexample): `res = [-1, -1, 1]` has two non-positive
    axes, yet validation succeeds: the code only rejects a grid
    resolution whose *product* `gx*gy*gz` is non-positive. -/
theorem validate_accepts_negative_axes :
    c8Options.grid.res = some (-1, -1, 1) ∧
    validateOptions c8Options = .ok () := by
  constructor
  · rfl
  · simp only [validateOptions, c8Options, createDefaultOptions, jsLe, Option.getD_some]
    norm_num

/-- C9 (counterexample): a patch whose `counts.maxParticles` key is
    explicitly present with value `undefined` overwrites the
    previously-defined default `200000` with `undefined`
    (`Object.assign` copies explicitly-undefined keys). -/
theorem merge_introduces_undefined :
    createDefaultOptions.counts.maxParticles = some 200000 ∧
    (mergeOptions createDefaultOptions (some c9Patch)).counts.maxParticles = none :=
  ⟨rfl, rfl⟩

/-- C10: constructing the CPU contact resolver from the default
    configuration (whose collider list is empty) yields exactly one
    default ground plane — normal `[0,1,0]`, offset 0, thickness
    `0.015`, friction defaulted from `xpbd.friction = 0.4` — and every
    resolve pass leaves each particle with `y ≥ 0.015` (the particle
    is projected out of the `y < thickness` half-space). -/
theorem sdfColliders_default_ground :
    sdfCollidersInit createDefaultOptions =
      [⟨.plane, ⟨some ⟨0, 1, 0⟩, some 0, none, none, none, none⟩, 2/5, 0, 3/200⟩] ∧
    ∀ (sq : ℚ → ℚ) (p v : Vec3),
      3/200 ≤ (resolveParticle sq (sdfCollidersInit createDefaultOptions) (p, v)).1.y := by
  constructor
  · rfl
  · intro sq p v
    have hr : resolveParticle sq (sdfCollidersInit createDefaultOptions) (p, v) =
        resolvePlane
          ⟨.plane, ⟨some ⟨0, 1, 0⟩, some 0, none, none, none, none⟩, 2/5, 0, 3/200⟩
          p v := rfl
    rw [hr]
    simp only [resolvePlane, Option.getD_some]
    split_ifs with h
    · dsimp only
      linarith [h]
    · dsimp only
      push_neg at h
      linarith [h]

/-- C6: a particle strictly inside a (unit-normal) plane collider's
    excluded half-space is, in a single `resolve` call with that plane
    as the sole collider, pushed out along the contact normal by
    exactly the penetration amount, and ends with signed distance
    exactly `0` from the (thickness-offset) plane — in particular the
    remaining penetration is `≤ 0`. -/
theorem resolve_plane_inside (sq : ℚ → ℚ) (n : Vec3) (offv th fr re : ℚ)
    (p v : Vec3)
    (hn : n.x * n.x + n.y * n.y + n.z * n.z = 1)
    (hin : p.x * n.x + p.y * n.y + p.z * n.z + offv - th < 0) :
    (resolveParticle sq
        [⟨.plane, ⟨some n, some offv, none, none, none, none⟩, fr, re, th⟩]
        (p, v)).1 =
      Vec3.sub p (Vec3.scale (p.x * n.x + p.y * n.y + p.z * n.z + offv - th) n) ∧
    ((resolveParticle sq
        [⟨.plane, ⟨some n, some offv, none, none, none, none⟩, fr, re, th⟩]
        (p, v)).1.x * n.x +
     (resolveParticle sq
        [⟨.plane, ⟨some n, some offv, none, none, none, none⟩, fr, re, th⟩]
        (p, v)).1.y * n.y +
     (resolveParticle sq
        [⟨.plane, ⟨some n, some offv, none, none, none, none⟩, fr, re, th⟩]
        (p, v)).1.z * n.z + offv - th = 0) := by
  have hr : (resolveParticle sq
      [⟨.plane, ⟨some n, some offv, none, none, none, none⟩, fr, re, th⟩]
      (p, v)).1 =
      Vec3.sub p (Vec3.scale (p.x * n.x + p.y * n.y + p.z * n.z + offv - th) n) := by
    show (resolvePlane
        ⟨.plane, ⟨some n, some offv, none, none, none, none⟩, fr, re, th⟩ p v).1 = _
    simp only [resolvePlane, Option.getD_some]
    rw [if_pos hin]
    simp only [Vec3.sub, Vec3.scale, Vec3.mk.injEq]
  refine ⟨hr, ?_⟩
  rw [hr]
  simp only [Vec3.sub, Vec3.scale]
  linear_combination (-(p.x * n.x + p.y * n.y + p.z * n.z + offv - th)) * hn

theorem resolve_plane_inside_witness :
    ((⟨0, 1, 0⟩ : Vec3).x * (⟨0, 1, 0⟩ : Vec3).x +
      (⟨0, 1, 0⟩ : Vec3).y * (⟨0, 1, 0⟩ : Vec3).y +
      (⟨0, 1, 0⟩ : Vec3).z * (⟨0, 1, 0⟩ : Vec3).z = 1) ∧
    ((⟨0, -1, 0⟩ : Vec3).x * (⟨0, 1, 0⟩ : Vec3).x +
      (⟨0, -1, 0⟩ : Vec3).y * (⟨0, 1, 0⟩ : Vec3).y +
      (⟨0, -1, 0⟩ : Vec3).z * (⟨0, 1, 0⟩ : Vec3).z + 0 - 3/200 < 0) ∧
    ((resolveParticle (fun q => q)
        [⟨.plane, ⟨some ⟨0, 1, 0⟩, some 0, none, none, none, none⟩, 2/5, 0, 3/200⟩]
        (⟨0, -1, 0⟩, ⟨0, -2, 0⟩)).1.x * (⟨0, 1, 0⟩ : Vec3).x +
     (resolveParticle (fun q => q)
        [⟨.plane, ⟨some ⟨0, 1, 0⟩, some 0, none, none, none, none⟩, 2/5, 0, 3/200⟩]
        (⟨0, -1, 0⟩, ⟨0, -2, 0⟩)).1.y * (⟨0, 1, 0⟩ : Vec3).y +
     (resolveParticle (fun q => q)
        [⟨.plane, ⟨some ⟨0, 1, 0⟩, some 0, none, none, none, none⟩, 2/5, 0, 3/200⟩]
        (⟨0, -1, 0⟩, ⟨0, -2, 0⟩)).1.z * (⟨0, 1, 0⟩ : Vec3).z + 0 - 3/200 = 0) :=
  ⟨by norm_num, by norm_num,
   (resolve_plane_inside (fun q => q) ⟨0, 1, 0⟩ 0 (3/200) (2/5) 0
      ⟨0, -1, 0⟩ ⟨0, -2, 0⟩ (by norm_num) (by norm_num)).2⟩

theorem spawnN_max (draws : ℕ → SpawnDraw) :
    ∀ (n : ℕ) (s : SimState), (spawnN draws n s).maxParticles = s.maxParticles := by
  intro n
  induction n with
  | zero => intro s; rfl
  | succ n ih =>
    intro s
    have hstep : spawnN draws (n + 1) s = spawnN draws n (spawnParticle draws s) := rfl
    rw [hstep, ih]
    unfold spawnParticle
    split_ifs <;> rfl

theorem spawnN_alive_le (draws : ℕ → SpawnDraw) :
    ∀ (n : ℕ) (s : SimState), s.ps.alive ≤ s.maxParticles →
      (spawnN draws n s).ps.alive ≤ s.maxParticles := by
  intro n
  induction n with
  | zero => intro s h; exact h
  | succ n ih =>
    intro s h
    have hstep : spawnN draws (n + 1) s = spawnN draws n (spawnParticle draws s) := rfl
    rw [hstep]
    by_cases hfull : s.maxParticles ≤ s.ps.alive
    · have h1 : spawnParticle draws s = s := by
        unfold spawnParticle
        rw [if_pos hfull]
      rw [h1]
      exact ih s h
    · push_neg at hfull
      have h1 : (spawnParticle draws s).ps.alive = s.ps.alive + 1 := by
        unfold spawnParticle
        rw [if_neg (by omega)]
      have h2 : (spawnParticle draws s).maxParticles = s.maxParticles := by
        unfold spawnParticle
        split_ifs <;> rfl
      have := ih (spawnParticle draws s) (by rw [h1, h2]; omega)
      rwa [h2] at this

theorem spawnN_alive_exact (draws : ℕ → SpawnDraw) :
    ∀ (n : ℕ) (s : SimState), s.ps.alive + n ≤ s.maxParticles →
      (spawnN draws n s).ps.alive = s.ps.alive + n := by
  intro n
  induction n with
  | zero => intro s _; rfl
  | succ n ih =>
    intro s h
    have hstep : spawnN draws (n + 1) s = spawnN draws n (spawnParticle draws s) := rfl
    rw [hstep]
    have h1 : (spawnParticle draws s).ps.alive = s.ps.alive + 1 := by
      unfold spawnParticle
      rw [if_neg (by omega)]
    have h2 : (spawnParticle draws s).maxParticles = s.maxParticles := by
      unfold spawnParticle
      split_ifs <;> rfl
    have := ih (spawnParticle draws s) (by rw [h1, h2]; omega)
    rw [this, h1]
    omega

/-- C4: for every emitter rate, timestep and current population within
    capacity, `emitParticles(dt)` never pushes `alive` beyond
    `maxParticles`. -/
theorem emitParticles_capacity (draws : ℕ → SpawnDraw) (dt : ℚ) (s : SimState)
    (h : s.ps.alive ≤ s.maxParticles) :
    (emitParticles draws dt s).ps.alive ≤ s.maxParticles := by
  simp only [emitParticles]
  split_ifs with h1 h2
  · exact h
  · exact h
  · exact spawnN_alive_le draws _ _ h

theorem emitParticles_capacity_witness :
    c4State.ps.alive ≤ c4State.maxParticles ∧
    (emitParticles constDraws 1 c4State).ps.alive ≤ c4State.maxParticles :=
  ⟨Nat.zero_le _, emitParticles_capacity constDraws 1 c4State (Nat.zero_le _)⟩

/-- C8 (amended): on options whose validated fields are defined,
    `validateOptions` succeeds iff `maxParticles > 0`, `dx > 0`, the
    *product* of the grid axes is positive (per-axis positivity is
    not required — the only change the counterexample forces),
    `substeps ≥ 1`, `dtMax > 0`, and the mode-specific FLIP/MPM
    conditions hold; being a pure function of `opts`, it mutates
    nothing. -/
theorem validateOptions_ok_iff (o : ROptions) (mp dxv gx gy gz ss dm pIters pf e nuv : ℚ)
    (h1 : o.counts.maxParticles = some mp) (h2 : o.grid.dx = some dxv)
    (h3 : o.grid.res = some (gx, gy, gz)) (h4 : o.time.substeps = some ss)
    (h5 : o.time.dtMax = some dm) (h6 : o.flip.pressureIters = some pIters)
    (h7 : o.flip.picFlip = some pf) (h8 : o.mpm.E = some e)
    (h9 : o.mpm.nu = some nuv) :
    validateOptions o = .ok () ↔
      (0 < mp ∧ 0 < dxv ∧ 0 < gx * gy * gz ∧ 1 ≤ ss ∧ 0 < dm ∧
       (o.mode = .flip → 1 ≤ pIters ∧ 0 ≤ pf ∧ pf ≤ 1) ∧
       (o.mode = .mpm → 0 < e ∧ 0 ≤ nuv ∧ nuv < 1/2)) := by
  cases hm : o.mode with
  | flip =>
    simp only [validateOptions, h1, h2, h3, h4, h5, h6, h7, h8, h9, jsLe, hm,
      Option.getD_some, decide_eq_true_eq, eq_self_iff_true, true_implies]
    split_ifs with ha hb hc hd he hf hg
    · exact iff_of_false (by simp) (by rintro ⟨c1, _⟩; linarith)
    · exact iff_of_false (by simp) (by rintro ⟨_, c2, _⟩; linarith)
    · exact iff_of_false (by simp) (by rintro ⟨_, _, c3, _⟩; linarith)
    · exact iff_of_false (by simp) (by rintro ⟨_, _, _, c4, _⟩; linarith)
    · exact iff_of_false (by simp) (by rintro ⟨_, _, _, _, c5, _⟩; linarith)
    · exact iff_of_false (by simp)
        (by rintro ⟨_, _, _, _, _, c6, _⟩; have := c6.1; linarith)
    · refine iff_of_false (by simp) ?_
      rintro ⟨_, _, _, _, _, c6, _⟩
      rcases hg with hg | hg
      · have := c6.2.1
        linarith
      · have := c6.2.2
        linarith
    · push_neg at ha hb hc hd he hf hg
      exact iff_of_true rfl ⟨by linarith, by linarith, by linarith, by linarith,
        by linarith, ⟨by linarith, hg.1, hg.2⟩, fun hcontra => hcontra.elim⟩
  | mpm =>
    simp only [validateOptions, h1, h2, h3, h4, h5, h6, h7, h8, h9, jsLe, hm,
      Option.getD_some, decide_eq_true_eq, eq_self_iff_true, true_implies]
    split_ifs with ha hb hc hd he hf hg
    · exact iff_of_false (by simp) (by rintro ⟨c1, _⟩; linarith)
    · exact iff_of_false (by simp) (by rintro ⟨_, c2, _⟩; linarith)
    · exact iff_of_false (by simp) (by rintro ⟨_, _, c3, _⟩; linarith)
    · exact iff_of_false (by simp) (by rintro ⟨_, _, _, c4, _⟩; linarith)
    · exact iff_of_false (by simp) (by rintro ⟨_, _, _, _, c5, _⟩; linarith)
    · exact iff_of_false (by simp)
        (by rintro ⟨_, _, _, _, _, _, c7⟩; have := c7.1; linarith)
    · refine iff_of_false (by simp) ?_
      rintro ⟨_, _, _, _, _, _, c7⟩
      rcases hg with hg | hg
      · have := c7.2.1
        linarith
      · have := c7.2.2
        linarith
    · push_neg at ha hb hc hd he hf hg
      exact iff_of_true rfl ⟨by linarith, by linarith, by linarith, by linarith,
        by linarith, fun hcontra => hcontra.elim, ⟨by linarith, hg.1, hg.2⟩⟩

theorem validateOptions_ok_iff_witness :
    validateOptions createDefaultOptions = .ok () :=
  (validateOptions_ok_iff createDefaultOptions 200000 (1/50) 96 96 96 2 (1/60)
      60 (1/20) 50000 (33/100) rfl rfl rfl rfl rfl rfl rfl rfl rfl).mpr
    (by norm_num)

theorem assignF_pres {α : Type} (t : Option α) (p : PF α) (h : PFDefined p) :
    OptPreserved t (assignF t p) := by
  match p with
  | none => exact fun hs => hs
  | some none => exact absurd rfl h
  | some (some v) => exact fun _ => rfl

theorem guardedF_pres {α : Type} (t : Option α) (p : PF α) :
    OptPreserved t (guardedF t p) := by
  match p with
  | none => exact fun hs => hs
  | some none => exact fun hs => hs
  | some (some v) => exact fun _ => rfl

theorem optPreserved_refl {α : Type} (t : Option α) : OptPreserved t t :=
  fun hs => hs

theorem assignCounts_pres (t : CountsR) (b : CountsP) (h : CountsPDefOnly b) :
    CountsPreserved t (assignCounts t b) :=
  ⟨assignF_pres _ _ h.1, assignF_pres _ _ h.2⟩

theorem assignGrid_pres (t : GridR) (b : GridP) (h : GridPDefOnly b) :
    GridPreserved t (assignGrid t b) :=
  ⟨assignF_pres _ _ h.1, assignF_pres _ _ h.2.1, assignF_pres _ _ h.2.2⟩

theorem assignTime_pres (t : TimeR) (b : TimeP) (h : TimePDefOnly b) :
    TimePreserved t (assignTime t b) :=
  ⟨assignF_pres _ _ h.1, assignF_pres _ _ h.2.1, assignF_pres _ _ h.2.2⟩

theorem assignFlip_pres (t : FlipR) (b : FlipP) (h : FlipPDefOnly b) :
    FlipPreserved t (assignFlip t b) :=
  ⟨assignF_pres _ _ h.1, assignF_pres _ _ h.2.1, assignF_pres _ _ h.2.2.1,
   assignF_pres _ _ h.2.2.2.1, assignF_pres _ _ h.2.2.2.2.1,
   assignF_pres _ _ h.2.2.2.2.2.1, assignF_pres _ _ h.2.2.2.2.2.2.1,
   assignF_pres _ _ h.2.2.2.2.2.2.2.1, assignF_pres _ _ h.2.2.2.2.2.2.2.2.1,
   assignF_pres _ _ h.2.2.2.2.2.2.2.2.2⟩

theorem assignMpm_pres (t : MpmR) (b : MpmP) (h : MpmPDefOnly b) :
    MpmPreserved t (assignMpm t b) :=
  ⟨assignF_pres _ _ h.1, assignF_pres _ _ h.2.1, assignF_pres _ _ h.2.2.1,
   assignF_pres _ _ h.2.2.2.1, assignF_pres _ _ h.2.2.2.2.1,
   assignF_pres _ _ h.2.2.2.2.2.1, assignF_pres _ _ h.2.2.2.2.2.2.1,
   assignF_pres _ _ h.2.2.2.2.2.2.2.1, assignF_pres _ _ h.2.2.2.2.2.2.2.2⟩

theorem assignEmit_pres (t : EmitR) (b : EmitP) (h : EmitPDefOnly b) :
    EmitPreserved t (assignEmit t b) :=
  ⟨assignF_pres _ _ h.1, assignF_pres _ _ h.2.1, assignF_pres _ _ h.2.2.1,
   assignF_pres _ _ h.2.2.2.1, assignF_pres _ _ h.2.2.2.2.1,
   assignF_pres _ _ h.2.2.2.2.2.1, assignF_pres _ _ h.2.2.2.2.2.2⟩

theorem assignRender_pres (t : RenderR) (b : RenderP) (h : RenderPDefOnly b) :
    RenderPreserved t (assignRender t b) :=
  ⟨assignF_pres _ _ h.1, assignF_pres _ _ h.2.1, assignF_pres _ _ h.2.2.1,
   assignF_pres _ _ h.2.2.2.1, assignF_pres _ _ h.2.2.2.2.1,
   assignF_pres _ _ h.2.2.2.2.2⟩

theorem mergeXpbd_pres (t : XpbdR) (b : XpbdP) : XpbdPreserved t (mergeXpbd t b) := by
  refine ⟨guardedF_pres _ _, ?_, ?_, guardedF_pres _ _, guardedF_pres _ _,
    guardedF_pres _ _, guardedF_pres _ _⟩
  · intro hs
    simp only [xpbdComplianceContact] at hs ⊢
    match htc : t.compliance with
    | none =>
      rw [htc] at hs
      exact absurd hs (by simp)
    | some c =>
      rw [htc] at hs
      match hb : b.compliance with
      | none =>
        simp only [mergeXpbd, hb, htc]
        exact hs
      | some cp =>
        simp only [mergeXpbd, hb, htc, Option.getD_some]
        exact guardedF_pres c.contact cp.contact hs
  · intro hs
    simp only [xpbdComplianceVolume] at hs ⊢
    match htc : t.compliance with
    | none =>
      rw [htc] at hs
      exact absurd hs (by simp)
    | some c =>
      rw [htc] at hs
      match hb : b.compliance with
      | none =>
        simp only [mergeXpbd, hb, htc]
        exact hs
      | some cp =>
        simp only [mergeXpbd, hb, htc, Option.getD_some]
        exact guardedF_pres c.volume cp.volume hs

/-- C9 (amended): `mergeOptions` never introduces `undefined` into a
    previously-defined field *provided* the patch does not explicitly
    carry an `undefined` key in the `Object.assign`-merged blocks; the
    `??`/`typeof`-guarded `xpbd` block can never introduce `undefined`
    regardless of the patch.  (An explicitly-undefined key in an
    assign-merged block does overwrite — the counterexample.) -/
theorem mergeOptions_defined_preserved (t : ROptions) (p : OptionsP)
    (hp : OptionsPDefOnly p) :
    ROptionsPreserved t (mergeOptions t (some p)) := by
  obtain ⟨hc, hg, ht, hf, hm, he, hr⟩ := hp
  refine ⟨?_, ?_, ?_, ?_, ?_, ?_, ?_, ?_⟩
  · show CountsPreserved t.counts (match p.counts with
      | none => t.counts | some b => assignCounts t.counts b)
    match hb : p.counts with
    | none => exact ⟨optPreserved_refl _, optPreserved_refl _⟩
    | some b =>
      rw [hb] at hc
      exact assignCounts_pres _ _ hc
  · show GridPreserved t.grid (match p.grid with
      | none => t.grid | some b => assignGrid t.grid b)
    match hb : p.grid with
    | none => exact ⟨optPreserved_refl _, optPreserved_refl _, optPreserved_refl _⟩
    | some b =>
      rw [hb] at hg
      exact assignGrid_pres _ _ hg
  · show TimePreserved t.time (match p.time with
      | none => t.time | some b => assignTime t.time b)
    match hb : p.time with
    | none => exact ⟨optPreserved_refl _, optPreserved_refl _, optPreserved_refl _⟩
    | some b =>
      rw [hb] at ht
      exact assignTime_pres _ _ ht
  · show FlipPreserved t.flip (match p.flip with
      | none => t.flip | some b => assignFlip t.flip b)
    match hb : p.flip with
    | none =>
      exact ⟨optPreserved_refl _, optPreserved_refl _, optPreserved_refl _,
        optPreserved_refl _, optPreserved_refl _, optPreserved_refl _,
        optPreserved_refl _, optPreserved_refl _, optPreserved_refl _,
        optPreserved_refl _⟩
    | some b =>
      rw [hb] at hf
      exact assignFlip_pres _ _ hf
  · show MpmPreserved t.mpm (match p.mpm with
      | none => t.mpm | some b => assignMpm t.mpm b)
    match hb : p.mpm with
    | none =>
      exact ⟨optPreserved_refl _, optPreserved_refl _, optPreserved_refl _,
        optPreserved_refl _, optPreserved_refl _, optPreserved_refl _,
        optPreserved_refl _, optPreserved_refl _, optPreserved_refl _⟩
    | some b =>
      rw [hb] at hm
      exact assignMpm_pres _ _ hm
  · show XpbdPreserved t.xpbd (match p.xpbd with
      | none => t.xpbd | some b => mergeXpbd t.xpbd b)
    match hb : p.xpbd with
    | none =>
      exact ⟨optPreserved_refl _, optPreserved_refl _, optPreserved_refl _,
        optPreserved_refl _, optPreserved_refl _, optPreserved_refl _,
        optPreserved_refl _⟩
    | some b => exact mergeXpbd_pres _ _
  · show EmitPreserved t.emit (match p.emit with
      | none => t.emit | some b => assignEmit t.emit b)
    match hb : p.emit with
    | none =>
      exact ⟨optPreserved_refl _, optPreserved_refl _, optPreserved_refl _,
        optPreserved_refl _, optPreserved_refl _, optPreserved_refl _,
        optPreserved_refl _⟩
    | some b =>
      rw [hb] at he
      exact assignEmit_pres _ _ he
  · show RenderPreserved t.render (match p.render with
      | none => t.render | some b => assignRender t.render b)
    match hb : p.render with
    | none =>
      exact ⟨optPreserved_refl _, optPreserved_refl _, optPreserved_refl _,
        optPreserved_refl _, optPreserved_refl _, optPreserved_refl _⟩
    | some b =>
      rw [hb] at hr
      exact assignRender_pres _ _ hr

theorem mergeOptions_defined_preserved_witness :
    OptionsPDefOnly c9GoodPatch ∧
    ROptionsPreserved createDefaultOptions
      (mergeOptions createDefaultOptions (some c9GoodPatch)) :=
  ⟨by
    refine ⟨?_, trivial, trivial, trivial, trivial, trivial, trivial⟩
    exact ⟨fun hcontra => by simp [c9GoodPatch] at hcontra, fun hcontra => by
      simp [c9GoodPatch] at hcontra⟩,
   mergeOptions_defined_preserved createDefaultOptions c9GoodPatch
    ⟨⟨fun hcontra => by simp [c9GoodPatch] at hcontra, fun hcontra => by
        simp [c9GoodPatch] at hcontra⟩,
      trivial, trivial, trivial, trivial, trivial, trivial⟩⟩

theorem seedFromEmitter_spec (draws : ℕ → SpawnDraw) (s : SimState) :
    (seedFromEmitter draws s).ps.alive =
      (min (s.maxParticles : ℤ) ⌊s.options.emit.rate.getD 0 * (1/10)⌋).toNat ∧
    (seedFromEmitter draws s).maxParticles = s.maxParticles := by
  have hle : (min (s.maxParticles : ℤ) ⌊s.options.emit.rate.getD 0 * (1/10)⌋).toNat
      ≤ s.maxParticles := by
    have h1 := min_le_left (s.maxParticles : ℤ) ⌊s.options.emit.rate.getD 0 * (1/10)⌋
    omega
  constructor
  · show (spawnN draws
      (min (s.maxParticles : ℤ) ⌊s.options.emit.rate.getD 0 * (1/10)⌋).toNat
      { s with ps := { s.ps with alive := 0 } }).ps.alive = _
    rw [spawnN_alive_exact draws _ { s with ps := { s.ps with alive := 0 } }
      (by simp only [Nat.zero_add]; exact hle)]
    dsimp only
    omega
  · exact spawnN_max draws _ _

theorem c2MergedValid :
    validateOptions (mergeOptions c2State.options (some c2Patch)) = .ok () := by
  norm_num [mergeOptions, validateOptions, c2State, c2Options, c2Patch,
    createDefaultOptions, jsLe]

theorem setParams_modeChange_eval (draws : ℕ → SpawnDraw) (p : OptionsP)
    (s : SimState) (m : Mode)
    (hm : p.mode = some m) (hne : m ≠ s.options.mode)
    (hok : validateOptions (mergeOptions s.options (some p)) = .ok ()) :
    (setParams draws p s).map (fun st => (st.ps.alive, st.maxParticles)) =
      .ok ((min (s.maxParticles : ℤ)
          ⌊(mergeOptions s.options (some p)).emit.rate.getD 0 * (1/10)⌋).toNat,
        s.maxParticles) := by
  obtain ⟨ha, hmx⟩ := seedFromEmitter_spec draws
    { s with options := mergeOptions s.options (some p)
             ps := { s.ps with alive := 0 } }
  dsimp only at ha hmx
  have hle : (min (s.maxParticles : ℤ)
      ⌊(mergeOptions s.options (some p)).emit.rate.getD 0 * (1/10)⌋).toNat
      ≤ s.maxParticles := by
    have h1 := min_le_left (s.maxParticles : ℤ)
      ⌊(mergeOptions s.options (some p)).emit.rate.getD 0 * (1/10)⌋
    omega
  simp only [setParams, hok, hm]
  rw [if_pos hne]
  by_cases hpe : p.emit.isSome
  · rw [if_pos hpe]
    dsimp only [Except.map]
    rw [ha, hmx]
    rw [Nat.min_eq_left hle]
  · rw [if_neg hpe]
    dsimp only [Except.map]
    rw [ha, hmx]

/-- C2 (counterexample): `setParams({mode:'mpm'})` on a FLIP-mode
    simulation (capacity 10, emitter rate 50) returns with
    `alive = 5` — the population is reseeded from the emitter, not
    left at 0. -/
theorem setParams_mode_change_not_zero :
    (setParams constDraws c2Patch c2State).map (fun st => st.ps.alive) = .ok 5 ∧
    (5 : ℕ) ≠ 0 := by
  have h := setParams_modeChange_eval constDraws c2Patch c2State .mpm rfl
    (by decide) c2MergedValid
  have hN : (min (c2State.maxParticles : ℤ)
      ⌊(mergeOptions c2State.options (some c2Patch)).emit.rate.getD 0 * (1/10)⌋).toNat
      = 5 := by
    norm_num [mergeOptions, c2State, c2Options, c2Patch, createDefaultOptions]
    decide
  rw [hN] at h
  refine ⟨?_, by decide⟩
  rcases hsp : setParams constDraws c2Patch c2State with e | st
  · rw [hsp] at h
    simp [Except.map] at h
  · rw [hsp] at h
    simp only [Except.map, Except.ok.injEq, Prod.mk.injEq] at h
    simp only [Except.map, Except.ok.injEq]
    exact h.1

/-- C2 (amended): `setParams` with a patch whose mode differs from the
    current mode resets `alive` to 0 but then immediately reseeds from
    the (merged) emitter, so on return
    `alive = min(maxParticles, floor(0.1 * rate))` — not 0 in general —
    and no buffer reallocation happens anywhere in `setParams`: the
    bundle's `maxParticles` is unchanged. -/
theorem setParams_modeChange_reseeds (draws : ℕ → SpawnDraw) (p : OptionsP)
    (s : SimState) (m : Mode)
    (hm : p.mode = some m) (hne : m ≠ s.options.mode)
    (hok : validateOptions (mergeOptions s.options (some p)) = .ok ()) :
    (setParams draws p s).map (fun st => (st.ps.alive, st.maxParticles)) =
      .ok ((min (s.maxParticles : ℤ)
          ⌊(mergeOptions s.options (some p)).emit.rate.getD 0 * (1/10)⌋).toNat,
        s.maxParticles) :=
  setParams_modeChange_eval draws p s m hm hne hok

theorem setParams_modeChange_reseeds_witness :
    c2Patch.mode = some Mode.mpm ∧ Mode.mpm ≠ c2State.options.mode ∧
    (setParams constDraws c2Patch c2State).map
        (fun st => (st.ps.alive, st.maxParticles)) =
      .ok ((min (c2State.maxParticles : ℤ)
          ⌊(mergeOptions c2State.options (some c2Patch)).emit.rate.getD 0 * (1/10)⌋).toNat,
        c2State.maxParticles) :=
  ⟨rfl, by decide,
   setParams_modeChange_reseeds constDraws c2Patch c2State .mpm rfl (by decide)
     c2MergedValid⟩

theorem liLoop_invariant (dt : ℚ) :
    ∀ (n : ℕ) (s : PState),
      n ≤ s.alive →
      (∀ k, n ≤ k → k < s.alive → 0 < s.life k) →
      (∀ k, s.alive ≤ k → s.life k ≤ 0) →
      (liLoop dt n s).alive ≤ s.alive ∧
      (∀ k, k < (liLoop dt n s).alive → 0 < (liLoop dt n s).life k) ∧
      (∀ k, (liLoop dt n s).alive ≤ k → (liLoop dt n s).life k ≤ 0) := by
  intro n
  induction n with
  | zero =>
    intro s _ h2 h3
    exact ⟨le_refl _, fun k hk => h2 k (Nat.zero_le k) hk, h3⟩
  | succ n ih =>
    intro s h1 h2 h3
    have hstep : liLoop dt (n + 1) s = liLoop dt n (liStep dt s n) := rfl
    rw [hstep]
    by_cases hsurv : 0 < Function.update s.life n (s.life n - dt) n
    · -- the particle at slot n survives the decrement
      have hs1 : liStep dt s n =
          { s with life := Function.update s.life n (s.life n - dt) } := by
        simp only [liStep]
        rw [if_pos hsurv]
      rw [hs1]
      have p1 : n ≤ s.alive := by omega
      have p2 : ∀ k, n ≤ k → k < s.alive →
          0 < Function.update s.life n (s.life n - dt) k := by
        intro k hk hks
        rcases eq_or_ne k n with rfl | hkn
        · exact hsurv
        · rw [Function.update_noteq hkn]
          exact h2 k (by omega) hks
      have p3 : ∀ k, s.alive ≤ k → Function.update s.life n (s.life n - dt) k ≤ 0 := by
        intro k hk
        have hkn : k ≠ n := by omega
        rw [Function.update_noteq hkn]
        exact h3 k hk
      obtain ⟨ha, hb, hc⟩ := ih
        { s with life := Function.update s.life n (s.life n - dt) } p1 p2 p3
      exact ⟨by dsimp only at ha; omega, hb, hc⟩
    · by_cases heq : n = s.alive - 1
      · -- slot n dies and is itself the last live slot: no swap
        have hs1 : liStep dt s n =
            { s with life := Function.update s.life n (s.life n - dt)
                     alive := s.alive - 1 } := by
          simp only [liStep]
          rw [if_neg hsurv, if_pos heq]
        rw [hs1]
        have p1 : n ≤ s.alive - 1 := by omega
        have p2 : ∀ k, n ≤ k → k < s.alive - 1 →
            0 < Function.update s.life n (s.life n - dt) k := by
          intro k hk hks
          exact absurd hks (by omega)
        have p3 : ∀ k, s.alive - 1 ≤ k →
            Function.update s.life n (s.life n - dt) k ≤ 0 := by
          intro k hk
          rcases eq_or_ne k n with rfl | hkn
          · exact le_of_not_lt hsurv
          · rw [Function.update_noteq hkn]
            exact h3 k (by omega)
        obtain ⟨ha, hb, hc⟩ := ih
          { s with life := Function.update s.life n (s.life n - dt)
                   alive := s.alive - 1 } p1 p2 p3
        exact ⟨by dsimp only at ha; omega, hb, hc⟩
      · -- slot n dies and is overwritten by the last live slot
        have hna : n < s.alive - 1 := by omega
        have hs1 : liStep dt s n =
            { life := Function.update (Function.update
                  (Function.update s.life n (s.life n - dt)) n
                  ((Function.update s.life n (s.life n - dt)) (s.alive - 1)))
                (s.alive - 1) 0
              pos := Function.update s.pos n (s.pos (s.alive - 1))
              vel := Function.update s.vel n (s.vel (s.alive - 1))
              alive := s.alive - 1 } := by
          simp only [liStep]
          rw [if_neg hsurv, if_neg heq]
        rw [hs1]
        have p1 : n ≤ s.alive - 1 := by omega
        have p2 : ∀ k, n ≤ k → k < s.alive - 1 →
            0 < Function.update (Function.update
                (Function.update s.life n (s.life n - dt)) n
                ((Function.update s.life n (s.life n - dt)) (s.alive - 1)))
              (s.alive - 1) 0 k := by
          intro k hk hks
          rcases eq_or_ne k n with rfl | hkn
          · rw [Function.update_noteq (by omega : k ≠ s.alive - 1),
              Function.update_same,
              Function.update_noteq (by omega : s.alive - 1 ≠ k)]
            exact h2 (s.alive - 1) (by omega) (by omega)
          · rw [Function.update_noteq (by omega : k ≠ s.alive - 1),
              Function.update_noteq hkn, Function.update_noteq hkn]
            exact h2 k (by omega) (by omega)
        have p3 : ∀ k, s.alive - 1 ≤ k →
            Function.update (Function.update
                (Function.update s.life n (s.life n - dt)) n
                ((Function.update s.life n (s.life n - dt)) (s.alive - 1)))
              (s.alive - 1) 0 k ≤ 0 := by
          intro k hk
          rcases eq_or_ne k (s.alive - 1) with rfl | hka
          · rw [Function.update_same]
          · have hkn : k ≠ n := by omega
            rw [Function.update_noteq hka, Function.update_noteq hkn,
              Function.update_noteq hkn]
            exact h3 k (by omega)
        obtain ⟨ha, hb, hc⟩ := ih
          { life := Function.update (Function.update
                (Function.update s.life n (s.life n - dt)) n
                ((Function.update s.life n (s.life n - dt)) (s.alive - 1)))
              (s.alive - 1) 0
            pos := Function.update s.pos n (s.pos (s.alive - 1))
            vel := Function.update s.vel n (s.vel (s.alive - 1))
            alive := s.alive - 1 } p1 p2 p3
        exact ⟨by dsimp only at ha; omega, hb, hc⟩

theorem liLoop_pos_invariant (dt : ℚ) :
    ∀ (n : ℕ) (s : PState),
      n ≤ s.alive →
      (∀ k, n ≤ k → k < s.alive → 0 < s.life k) →
      (liLoop dt n s).alive ≤ s.alive ∧
      (∀ k, k < (liLoop dt n s).alive → 0 < (liLoop dt n s).life k) := by
  intro n
  induction n with
  | zero =>
    intro s _ h2
    exact ⟨le_refl _, fun k hk => h2 k (Nat.zero_le k) hk⟩
  | succ n ih =>
    intro s h1 h2
    have hstep : liLoop dt (n + 1) s = liLoop dt n (liStep dt s n) := rfl
    rw [hstep]
    by_cases hsurv : 0 < Function.update s.life n (s.life n - dt) n
    · have hs1 : liStep dt s n =
          { s with life := Function.update s.life n (s.life n - dt) } := by
        simp only [liStep]
        rw [if_pos hsurv]
      rw [hs1]
      have p1 : n ≤ s.alive := by omega
      have p2 : ∀ k, n ≤ k → k < s.alive →
          0 < Function.update s.life n (s.life n - dt) k := by
        intro k hk hks
        rcases eq_or_ne k n with rfl | hkn
        · exact hsurv
        · rw [Function.update_noteq hkn]
          exact h2 k (by omega) hks
      obtain ⟨ha, hb⟩ := ih
        { s with life := Function.update s.life n (s.life n - dt) } p1 p2
      exact ⟨by dsimp only at ha; omega, hb⟩
    · by_cases heq : n = s.alive - 1
      · have hs1 : liStep dt s n =
            { s with life := Function.update s.life n (s.life n - dt)
                     alive := s.alive - 1 } := by
          simp only [liStep]
          rw [if_neg hsurv, if_pos heq]
        rw [hs1]
        have p1 : n ≤ s.alive - 1 := by omega
        have p2 : ∀ k, n ≤ k → k < s.alive - 1 →
            0 < Function.update s.life n (s.life n - dt) k := by
          intro k hk hks
          exact absurd hks (by omega)
        obtain ⟨ha, hb⟩ := ih
          { s with life := Function.update s.life n (s.life n - dt)
                   alive := s.alive - 1 } p1 p2
        exact ⟨by dsimp only at ha; omega, hb⟩
      · have hna : n < s.alive - 1 := by omega
        have hs1 : liStep dt s n =
            { life := Function.update (Function.update
                  (Function.update s.life n (s.life n - dt)) n
                  ((Function.update s.life n (s.life n - dt)) (s.alive - 1)))
                (s.alive - 1) 0
              pos := Function.update s.pos n (s.pos (s.alive - 1))
              vel := Function.update s.vel n (s.vel (s.alive - 1))
              alive := s.alive - 1 } := by
          simp only [liStep]
          rw [if_neg hsurv, if_neg heq]
        rw [hs1]
        have p1 : n ≤ s.alive - 1 := by omega
        have p2 : ∀ k, n ≤ k → k < s.alive - 1 →
            0 < Function.update (Function.update
                (Function.update s.life n (s.life n - dt)) n
                ((Function.update s.life n (s.life n - dt)) (s.alive - 1)))
              (s.alive - 1) 0 k := by
          intro k hk hks
          rcases eq_or_ne k n with rfl | hkn
          · rw [Function.update_noteq (by omega : k ≠ s.alive - 1),
              Function.update_same,
              Function.update_noteq (by omega : s.alive - 1 ≠ k)]
            exact h2 (s.alive - 1) (by omega) (by omega)
          · rw [Function.update_noteq (by omega : k ≠ s.alive - 1),
              Function.update_noteq hkn, Function.update_noteq hkn]
            exact h2 k (by omega) (by omega)
        obtain ⟨ha, hb⟩ := ih
          { life := Function.update (Function.update
                (Function.update s.life n (s.life n - dt)) n
                ((Function.update s.life n (s.life n - dt)) (s.alive - 1)))
              (s.alive - 1) 0
            pos := Function.update s.pos n (s.pos (s.alive - 1))
            vel := Function.update s.vel n (s.vel (s.alive - 1))
            alive := s.alive - 1 } p1 p2
        exact ⟨by dsimp only at ha; omega, hb⟩

/-- C3 (counterexample): a reachable prior state with a stale positive
    lifetime above `alive` (`alive = 1`, `life = 5, 3, 0, …` — the
    shape a mode-change reseed leaves).  After
    `integrateLifetime(1)` completes, `alive = 1` but two slots hold
    `life > 0`: the compaction loop only visits `[0, alive)`, so the
    claimed count equality fails for this prior state. -/
theorem integrateLifetime_stale_count_cex :
    c3Stale.alive = 1 ∧ (0 : ℚ) < c3Stale.life 1 ∧
    (integrateLifetime 1 c3Stale).alive = 1 ∧
    ((Finset.range 3).filter
      (fun k => 0 < (integrateLifetime 1 c3Stale).life k)).card = 2 ∧
    (1 : ℕ) ≠ 2 := by
  have hcond : 0 < Function.update c3Stale.life 0 (c3Stale.life 0 - 1) 0 := by
    rw [Function.update_same]
    norm_num [c3Stale, c3StaleLife]
  have h1 : liStep 1 c3Stale 0 =
      { c3Stale with life := Function.update c3Stale.life 0 (c3Stale.life 0 - 1) } := by
    simp only [liStep]
    rw [if_pos hcond]
  have h2 : integrateLifetime 1 c3Stale = liStep 1 c3Stale 0 := rfl
  have hl0 : (integrateLifetime 1 c3Stale).life 0 = 4 := by
    rw [h2, h1]
    dsimp only
    rw [Function.update_same]
    norm_num [c3Stale, c3StaleLife]
  have hl1 : (integrateLifetime 1 c3Stale).life 1 = 3 := by
    rw [h2, h1]
    dsimp only
    rw [Function.update_noteq (by omega : (1 : ℕ) ≠ 0)]
    norm_num [c3Stale, c3StaleLife]
  have hl2 : (integrateLifetime 1 c3Stale).life 2 = 0 := by
    rw [h2, h1]
    dsimp only
    rw [Function.update_noteq (by omega : (2 : ℕ) ≠ 0)]
    norm_num [c3Stale, c3StaleLife]
  have halive : (integrateLifetime 1 c3Stale).alive = 1 := by
    rw [h2, h1]
    rfl
  have hfilter : (Finset.range 3).filter
      (fun k => 0 < (integrateLifetime 1 c3Stale).life k) = {0, 1} := by
    ext k
    simp only [Finset.mem_filter, Finset.mem_range, Finset.mem_insert,
      Finset.mem_singleton]
    constructor
    · rintro ⟨hk3, hpos⟩
      interval_cases k
      · left; rfl
      · right; rfl
      · rw [hl2] at hpos
        norm_num at hpos
    · rintro (rfl | rfl)
      · exact ⟨by norm_num, by rw [hl0]; norm_num⟩
      · exact ⟨by norm_num, by rw [hl1]; norm_num⟩
  refine ⟨rfl, ?_, halive, ?_, by decide⟩
  · norm_num [c3Stale, c3StaleLife]
  · rw [hfilter]
    rfl

/-- C3 (amended): after `integrateLifetime(dt)` — for any `dt` and
    any prior state — every slot in `[0, alive)` holds `life > 0`,
    and removal is the swap-with-last overwrite and decrement visible
    in `liStep`; additionally, *when the prior free slots `[alive, ∞)`
    held non-positive lifetimes*, `alive` equals the number of slots
    with `life > 0` over any capacity `N ≥` the prior `alive`.
    Without that precondition the count can exceed `alive`, since the
    loop never visits slots above the prior `alive`. -/
theorem integrateLifetime_compacts (dt : ℚ) (s : PState) (N : ℕ) :
    (∀ k, k < (integrateLifetime dt s).alive → 0 < (integrateLifetime dt s).life k) ∧
    ((∀ k, s.alive ≤ k → s.life k ≤ 0) → s.alive ≤ N →
      (integrateLifetime dt s).alive =
        ((Finset.range N).filter
          (fun k => 0 < (integrateLifetime dt s).life k)).card) := by
  have hIL : integrateLifetime dt s = liLoop dt s.alive s := rfl
  constructor
  · rw [hIL]
    exact (liLoop_pos_invariant dt s.alive s (le_refl _)
      (fun k hk1 hk2 => absurd hk2 (by omega))).2
  · intro hfree hN
    rw [hIL]
    obtain ⟨ha, hb, hc⟩ := liLoop_invariant dt s.alive s (le_refl _)
      (fun k hk1 hk2 => absurd hk2 (by omega)) hfree
    have hset : (Finset.range N).filter (fun k => 0 < (liLoop dt s.alive s).life k) =
        Finset.range (liLoop dt s.alive s).alive := by
      ext k
      simp only [Finset.mem_filter, Finset.mem_range]
      constructor
      · rintro ⟨hkN, hpos⟩
        by_contra hk
        push_neg at hk
        exact absurd hpos (not_lt.mpr (hc k hk))
      · intro hk
        exact ⟨by omega, hb k hk⟩
    rw [hset, Finset.card_range]

theorem integrateLifetime_compacts_witness :
    (∀ k, c3State.alive ≤ k → c3State.life k ≤ 0) ∧ c3State.alive ≤ 3 ∧
    ((∀ k, k < (integrateLifetime 2 c3State).alive →
        0 < (integrateLifetime 2 c3State).life k) ∧
     (integrateLifetime 2 c3State).alive =
       ((Finset.range 3).filter
         (fun k => 0 < (integrateLifetime 2 c3State).life k)).card) :=
  ⟨by
    intro k hk
    have hk2 : 2 ≤ k := hk
    show c3Life k ≤ 0
    unfold c3Life
    rw [if_neg (by omega), if_neg (by omega)],
   by decide,
   ⟨(integrateLifetime_compacts 2 c3State 3).1,
    (integrateLifetime_compacts 2 c3State 3).2
      (by
        intro k hk
        have hk2 : 2 ≤ k := hk
        show c3Life k ≤ 0
        unfold c3Life
        rw [if_neg (by omega), if_neg (by omega)])
      (by decide)⟩⟩
